import Mathlib

/-!
Shallow embedding of the actorhub-go client library (client.go, errors.go,
models.go).  Pure data and control flow are translated directly from the Go
source; the network transport, the raw JSON wire bytes and the type-directed
destination decoding of `encoding/json` are abstracted as explicit parameters
so that every definition stays executable.
-/

/-- JSON values as produced by Go `encoding/json` when decoding into
`map[string]interface{}` (JSON numbers become `float64`). -/
inductive JVal where
  | null : JVal
  | boolean (b : Bool) : JVal
  | num (x : Float) : JVal
  | str (s : String) : JVal
  | arr (xs : List JVal) : JVal
  | obj (fields : List (String × JVal)) : JVal

/-- A raw HTTP response body, abstracted by its `encoding/json` parse outcome:
`empty` is a zero-length byte slice, `jsonObj` is a body that unmarshals into
a JSON object (a `map[string]interface{}`), and `raw` is a non-empty body
that does not unmarshal into a JSON object (malformed bytes, or valid JSON
that is not an object, such as an array). -/
inductive Body where
  | empty : Body
  | jsonObj (fields : List (String × JVal)) : Body
  | raw (bytes : String) : Body

/-- Go `len(respBody) > 0`: whether the body byte slice is non-empty. -/
def bodyNonEmpty : Body → Bool
  | .empty => false
  | .jsonObj _ => true
  | .raw _ => true

/-- Lookup of a key in a decoded JSON object, as Go map indexing
`errResp[key]` (first match in the association list). -/
def lookupField (fields : List (String × JVal)) (key : String) : Option JVal :=
  (fields.find? (fun p => p.1 == key)).map (fun p => p.2)

/-- Go `errResp["detail"].(string)`: the `detail` field of the error body
when the body parsed to an object and the field is a string. -/
def detailString : Body → Option String
  | .jsonObj fields =>
    match lookupField fields "detail" with
    | some (.str s) => some s
    | _ => none
  | _ => none

/-- The message chosen by handleResponse for an error status: the default,
overridden by a string `detail` field of the body when present. -/
def detailOr (b : Body) (dflt : String) : String :=
  match detailString b with
  | some d => d
  | none => dflt

/-- Go `errResp["errors"].(map[string]interface{})`: the `errors` field of a
422 body when it is itself a JSON object; `none` models the nil map. -/
def errorsMap : Body → Option (List (String × JVal))
  | .jsonObj fields =>
    match lookupField fields "errors" with
    | some (.obj m) => some m
    | _ => none
  | _ => none

/-- The `errResp` map stored as `ResponseData` on a generic API error:
the parsed object, or `none` for the nil map left by a failed unmarshal. -/
def bodyFields : Body → Option (List (String × JVal))
  | .jsonObj fields => some fields
  | _ => none

/-- Go `resp.Header.Get(key)`: the value of a header, `""` when absent. -/
def headerGet (headers : List (String × String)) (key : String) : String :=
  match headers.find? (fun p => p.1 == key) with
  | some p => p.2
  | none => ""

/-- An HTTP response as consumed by handleResponse: status code, headers and
the (already read) body. -/
structure HttpResponse where
  statusCode : Nat
  headers : List (String × String)
  body : Body

/-- Go `strconv.Atoi`: an optional sign followed by decimal digits, with
`ParseInt`'s 64-bit range behaviour: a syntactically valid value outside the
int64 range is returned clamped to the nearest bound together with a range
error, and the caller at client.go:200 discards the error, keeping the
clamped value.  `none` is a syntax error, for which Atoi returns 0. -/
def goAtoi (s : String) : Option Int :=
  let digits := if s.startsWith "-" || s.startsWith "+" then s.drop 1 else s
  if digits = "" then none
  else
    match digits.toNat? with
    | some n =>
      let v : Int := if s.startsWith "-" then -(n : Int) else (n : Int)
      if v < -(2 ^ 63) then some (-(2 ^ 63))
      else if v > 2 ^ 63 - 1 then some (2 ^ 63 - 1)
      else some v
    | none => none

/-- The `retryAfter` computed for a 429 response: `0`, overwritten by
`strconv.Atoi` of the `Retry-After` header when that header is non-empty
(`Atoi` yields `0` on a syntax error, whose error value is discarded). -/
def retryAfterOf (resp : HttpResponse) : Int :=
  let ra := headerGet resp.headers "Retry-After"
  if ra = "" then 0
  else
    match goAtoi ra with
    | some n => n
    | none => 0

/-- errors.go: the base ActorHubError record. -/
structure ActorHubError where
  Message : String
  StatusCode : Nat
  ResponseData : Option (List (String × JVal))
  RequestID : String

/-- The closed taxonomy of errors a client call can return.  The first six
constructors are the error types of errors.go (`actorHub` is the base
`ActorHubError` used directly for generic >=400 failures); `transport` is a
`fmt.Errorf`-wrapped error (marshal, request construction, send, read or
unmarshal failure); `contextCanceled` is `ctx.Err()`. -/
inductive ClientError where
  | actorHub (e : ActorHubError) : ClientError
  | authentication (e : ActorHubError) : ClientError
  | rateLimit (e : ActorHubError) (RetryAfter : Int) : ClientError
  | validation (e : ActorHubError) (Errors : Option (List (String × JVal))) : ClientError
  | notFound (e : ActorHubError) : ClientError
  | server (e : ActorHubError) : ClientError
  | transport (msg : String) : ClientError
  | contextCanceled : ClientError

/-- errors.go NewAuthenticationError. -/
def NewAuthenticationError (message requestID : String) : ClientError :=
  let m := if message = "" then "Invalid or missing API key" else message
  .authentication { Message := m, StatusCode := 401, ResponseData := none, RequestID := requestID }

/-- errors.go NewRateLimitError. -/
def NewRateLimitError (message : String) (retryAfter : Int) (requestID : String) : ClientError :=
  let m := if message = "" then "Rate limit exceeded" else message
  .rateLimit { Message := m, StatusCode := 429, ResponseData := none, RequestID := requestID }
    retryAfter

/-- errors.go NewValidationError. -/
def NewValidationError (message : String) (errors : Option (List (String × JVal)))
    (requestID : String) : ClientError :=
  let m := if message = "" then "Validation error" else message
  .validation { Message := m, StatusCode := 422, ResponseData := none, RequestID := requestID }
    errors

/-- errors.go NewNotFoundError. -/
def NewNotFoundError (message requestID : String) : ClientError :=
  let m := if message = "" then "Resource not found" else message
  .notFound { Message := m, StatusCode := 404, ResponseData := none, RequestID := requestID }

/-- errors.go NewServerError. -/
def NewServerError (message : String) (statusCode : Nat) (requestID : String) : ClientError :=
  let m := if message = "" then "Server error" else message
  .server { Message := m, StatusCode := statusCode, ResponseData := none, RequestID := requestID }

/-- The retry condition of doRequest: Go
`switch err.(type) { case *RateLimitError, *ServerError: ... }`. -/
def ClientError.isRetryable : ClientError → Bool
  | .rateLimit _ _ => true
  | .server _ => true
  | _ => false

/-- client.go handleResponse: classify an HTTP response by status code into
a typed error, or on success decode the body into the destination.  `dec` is
`none` when the Go `result` destination is nil, otherwise the type-directed
`json.Unmarshal` of the destination type (returning `none` on a decode
failure); `dest` is the destination value before the call, returned
unchanged whenever the source leaves `result` untouched. -/
def handleResponse {δ : Type} (dec : Option (Body → Option δ)) (dest : δ)
    (resp : HttpResponse) : Except ClientError δ :=
  let requestID := headerGet resp.headers "X-Request-ID"
  if resp.statusCode = 401 then
    .error (NewAuthenticationError (detailOr resp.body "Invalid or missing API key") requestID)
  else if resp.statusCode = 404 then
    .error (NewNotFoundError (detailOr resp.body "Resource not found") requestID)
  else if resp.statusCode = 422 then
    .error (NewValidationError (detailOr resp.body "Validation error") (errorsMap resp.body)
      requestID)
  else if resp.statusCode = 429 then
    .error (NewRateLimitError (detailOr resp.body "Rate limit exceeded") (retryAfterOf resp)
      requestID)
  else if 500 ≤ resp.statusCode then
    .error (NewServerError (detailOr resp.body ("Server error: " ++ toString resp.statusCode))
      resp.statusCode requestID)
  else if 400 ≤ resp.statusCode then
    .error (.actorHub
      { Message := detailOr resp.body ("API error: " ++ toString resp.statusCode)
        StatusCode := resp.statusCode
        ResponseData := bodyFields resp.body
        RequestID := requestID })
  else
    match dec with
    | some d =>
      if bodyNonEmpty resp.body then
        match d resp.body with
        | some v => .ok v
        | none => .error (.transport "failed to unmarshal response")
      else .ok dest
    | none => .ok dest

/-- client.go: the client configuration (the transport handle and its
timeout carry no decision logic and are not modelled). -/
structure Client where
  apiKey : String
  baseURL : String
  maxRetries : Int

/-- client.go DefaultBaseURL. -/
def DefaultBaseURL : String := "https://api.actorhub.ai"

/-- client.go DefaultMaxRetries. -/
def DefaultMaxRetries : Int := 3

/-- client.go Version. -/
def Version : String := "0.1.0"

/-- client.go WithBaseURL: `strings.TrimSuffix(baseURL, "/")`. -/
def WithBaseURL (baseURL : String) : Client → Client :=
  fun c => { c with baseURL := if baseURL.endsWith "/" then baseURL.dropRight 1 else baseURL }

/-- client.go WithMaxRetries. -/
def WithMaxRetries (maxRetries : Int) : Client → Client :=
  fun c => { c with maxRetries := maxRetries }

/-- client.go NewClient: defaults, then each option applied in order. -/
def NewClient (apiKey : String) (opts : List (Client → Client)) : Client :=
  opts.foldl (fun c opt => opt c)
    { apiKey := apiKey, baseURL := DefaultBaseURL, maxRetries := DefaultMaxRetries }

/-- The request assembled by doRequestOnce before it is sent: URL from base
and path, and the three headers set unconditionally at client.go lines
138-140 (`hasBody` records whether a payload was serialized into the body). -/
structure HttpRequest where
  method : String
  url : String
  hasBody : Bool
  headers : List (String × String)

/-- client.go doRequestOnce, lines 122-140: request construction. -/
def buildRequest (c : Client) (method path : String) (hasBody : Bool) : HttpRequest :=
  { method := method
    url := c.baseURL ++ path
    hasBody := hasBody
    headers := [("X-API-Key", c.apiKey),
                ("Content-Type", "application/json"),
                ("User-Agent", "actorhub-go/" ++ Version)] }

/-- The effectful steps of one doRequestOnce attempt, abstracted: either one
of the three fallible IO steps fails (`json.Marshal` of the payload,
`http.NewRequestWithContext`, `httpClient.Do`), or the transport delivers a
response. -/
inductive AttemptEnv where
  | marshalFail : AttemptEnv
  | newRequestFail : AttemptEnv
  | sendFail : AttemptEnv
  | response (resp : HttpResponse) : AttemptEnv

/-- client.go doRequestOnce: a single attempt.  Each early-return
`fmt.Errorf` becomes a `transport` error with the source's message text;
otherwise the response is classified by handleResponse. -/
def doRequestOnce {δ : Type} (dec : Option (Body → Option δ)) (dest : δ)
    (env : AttemptEnv) : Except ClientError δ :=
  match env with
  | .marshalFail => .error (.transport "failed to marshal request body")
  | .newRequestFail => .error (.transport "failed to create request")
  | .sendFail => .error (.transport "failed to send request")
  | .response resp => handleResponse dec dest resp

/-- Two's-complement wrap of a mathematical integer into the int64 range. -/
def int64wrap (x : Int) : Int := (x + 2 ^ 63) % 2 ^ 64 - 2 ^ 63

/-- client.go doRequest, lines 102-105:
`waitTime := time.Duration(1<<attempt) * time.Second`, then capped at 10
seconds, computed in int64 nanoseconds with Go's wrapping arithmetic.  Go's
`1<<attempt` on a 64-bit int equals `int64wrap (2 ^ attempt)` for every
shift count: up to 62 the power is exact, at 63 both give the minimum
int64, and from 64 on Go's shift yields 0, which is 2^attempt mod 2^64.
The product with a billion then wraps again; past attempt 33 it leaves the
int64 range, so the comparison against 10 seconds sees the wrapped value
(negative for attempt 34, for example) and the cap may not fire. -/
def backoffNanos (attempt : Nat) : Int :=
  let w := int64wrap (int64wrap (2 ^ attempt) * 1000000000)
  if w > 10 * 1000000000 then 10 * 1000000000 else w

/-- The duration actually slept by `time.After(waitTime)`: a zero or
negative duration fires immediately, so the sleep is the computed backoff
clamped below at 0. -/
def backoffSleepNanos (attempt : Nat) : Int := max (backoffNanos attempt) 0

/-- The observable outcome of a doRequest call: the returned error or the
final destination value, the number of doRequestOnce attempts performed,
and the sequence of backoff waits completed (slept nanoseconds, in
order). -/
structure DispatchResult (δ : Type) where
  result : Except ClientError δ
  attemptsMade : Nat
  waits : List Int

/-- client.go doRequest, lines 91-117: the retry loop.  `once i` is the
outcome attempt `i` would produce (abstracting doRequestOnce's effects);
`cancel i` is whether `ctx.Done()` wins the `select` during the backoff
wait that follows attempt `i`.  `fuel` is the remaining iteration count
(`maxRetries - attempt`), `lastErr` the accumulator (`nil` initially). -/
def doRequestLoop {δ : Type} (once : Nat → Except ClientError δ) (cancel : Nat → Bool) :
    Nat → Nat → δ → Option ClientError → List Int → Nat → DispatchResult δ
  | 0, _, dest, lastErr, waits, made =>
    { result := match lastErr with
        | some e => .error e
        | none => .ok dest
      attemptsMade := made
      waits := waits }
  | fuel + 1, attempt, dest, _lastErr, waits, made =>
    match once attempt with
    | .ok v => { result := .ok v, attemptsMade := made + 1, waits := waits }
    | .error e =>
      if e.isRetryable then
        if cancel attempt then
          { result := .error .contextCanceled, attemptsMade := made + 1, waits := waits }
        else
          doRequestLoop once cancel fuel (attempt + 1) dest (some e)
            (waits ++ [backoffSleepNanos attempt]) (made + 1)
      else
        { result := .error e, attemptsMade := made + 1, waits := waits }

/-- client.go doRequest: run the loop for `maxRetries` iterations starting
at attempt 0 with a nil `lastErr` (a non-positive `maxRetries` runs zero
iterations, exactly as the Go `for attempt := 0; attempt < c.maxRetries`
loop).  `dest` is the caller's destination value before the call. -/
def doRequest {δ : Type} (once : Nat → Except ClientError δ) (cancel : Nat → Bool)
    (maxRetries : Int) (dest : δ) : DispatchResult δ :=
  doRequestLoop once cancel maxRetries.toNat 0 dest none [] 0

/-- Whether an attempt outcome sends doRequest around the loop again: a
classified error of one of the two retryable types. -/
def retriedOn {δ : Type} (r : Except ClientError δ) : Bool :=
  match r with
  | .error e => e.isRetryable
  | .ok _ => false

/-- models.go VerifyRequest. -/
structure VerifyRequest where
  ImageURL : String
  ImageBase64 : String
  IncludeLicenseOptions : Bool

/-- models.go FaceBBox. -/
structure FaceBBox where
  X : Float
  Y : Float
  Width : Float
  Height : Float

/-- models.go LicenseOption. -/
structure LicenseOption where
  «Type» : String
  PriceUSD : Float
  DurationDays : Int
  MaxImpressions : Option Int

/-- models.go VerifyResult. -/
structure VerifyResult where
  Protected : Bool
  IdentityID : Option String
  SimilarityScore : Option Float
  DisplayName : Option String
  LicenseRequired : Bool
  BlockedCategories : List String
  LicenseOptions : List LicenseOption
  FaceBBox : Option FaceBBox

/-- models.go VerifyResponse. -/
structure VerifyResponse where
  Protected : Bool
  FacesDetected : Int
  Identities : List VerifyResult
  ResponseTimeMs : Int
  RequestID : String
deriving Inhabited

/-- models.go ConsentCheckRequest. -/
structure ConsentCheckRequest where
  ImageURL : String
  ImageBase64 : String
  FaceEmbedding : List Float
  Platform : String
  IntendedUse : String
  Region : String

/-- models.go ConsentDetails. -/
structure ConsentDetails where
  CommercialUse : Bool
  AITraining : Bool
  VideoGeneration : Bool
  Deepfake : Bool

/-- models.go ConsentRestrictions. -/
structure ConsentRestrictions where
  BlockedCategories : List String
  BlockedRegions : List String
  BlockedBrands : List String

/-- models.go ConsentLicenseInfo. -/
structure ConsentLicenseInfo where
  Available : Bool
  URL : Option String
  Pricing : List (String × Float)

/-- models.go ConsentResult. -/
structure ConsentResult where
  Protected : Bool
  IdentityID : Option String
  SimilarityScore : Option Float
  Consent : ConsentDetails
  Restrictions : ConsentRestrictions
  License : ConsentLicenseInfo

/-- models.go ConsentCheckResponse. -/
structure ConsentCheckResponse where
  RequestID : String
  Protected : Bool
  FacesDetected : Int
  Faces : List ConsentResult
  ResponseTimeMs : Int
  RateLimitRemaining : Option Int
deriving Inhabited

/-- models.go PurchaseLicenseRequest. -/
structure PurchaseLicenseRequest where
  IdentityID : String
  LicenseType : String
  UsageType : String
  ProjectName : String
  ProjectDescription : String
  DurationDays : Int
  AllowedPlatforms : List String
  MaxImpressions : Option Int
  MaxOutputs : Option Int

/-- models.go PurchaseResponse. -/
structure PurchaseResponse where
  CheckoutURL : String
  SessionID : String
  PriceUSD : Float
  LicenseDetails : List (String × JVal)
deriving Inhabited

/-- client.go Verify: the local validation guard, then the dispatch.  The
second component counts the doRequestOnce attempts performed (0 when the
guard fires, so no network call happens).  The destination starts as the
Go zero value `var result VerifyResponse`. -/
def Verify (c : Client) (once : Nat → Except ClientError VerifyResponse)
    (cancel : Nat → Bool) (req : VerifyRequest) :
    Except ClientError VerifyResponse × Nat :=
  if req.ImageURL = "" ∧ req.ImageBase64 = "" then
    (.error (NewValidationError "Must provide image_url or image_base64" none ""), 0)
  else
    let r := doRequest once cancel c.maxRetries default
    (r.result, r.attemptsMade)

/-- client.go CheckConsent: the local validation guard
(`len(req.FaceEmbedding) == 0` for the embedding), then the dispatch. -/
def CheckConsent (c : Client) (once : Nat → Except ClientError ConsentCheckResponse)
    (cancel : Nat → Bool) (req : ConsentCheckRequest) :
    Except ClientError ConsentCheckResponse × Nat :=
  if req.ImageURL = "" ∧ req.ImageBase64 = "" ∧ req.FaceEmbedding.length = 0 then
    (.error (NewValidationError "Must provide image_url, image_base64, or face_embedding" none
      ""), 0)
  else
    let r := doRequest once cancel c.maxRetries default
    (r.result, r.attemptsMade)

/-- The observable outcome of a PurchaseLicense call.  `finalReq` is the
struct the caller's pointer refers to after the call; since the same
pointer is the dispatched payload, it is also the request body sent. -/
structure PurchaseCall where
  finalReq : PurchaseLicenseRequest
  result : Except ClientError PurchaseResponse
  attempts : Nat

/-- client.go PurchaseLicense: default `DurationDays` to 30 when it is 0 by
mutating the caller's request in place, then dispatch that struct. -/
def PurchaseLicense (c : Client) (once : Nat → Except ClientError PurchaseResponse)
    (cancel : Nat → Bool) (req : PurchaseLicenseRequest) : PurchaseCall :=
  let req1 := if req.DurationDays = 0 then { req with DurationDays := 30 } else req
  let r := doRequest once cancel c.maxRetries default
  { finalReq := req1, result := r.result, attempts := r.attemptsMade }

theorem doRequestLoop_zero {δ : Type} (once : Nat → Except ClientError δ) (cancel : Nat → Bool)
    (attempt : Nat) (dest : δ) (lastErr : Option ClientError) (waits : List Int) (made : Nat) :
    doRequestLoop once cancel 0 attempt dest lastErr waits made =
      { result := match lastErr with
          | some e => .error e
          | none => .ok dest
        attemptsMade := made
        waits := waits } := rfl

theorem doRequestLoop_ok {δ : Type} (once : Nat → Except ClientError δ) (cancel : Nat → Bool)
    (fuel attempt : Nat) (dest : δ) (lastErr : Option ClientError) (waits : List Int) (made : Nat)
    (v : δ) (h : once attempt = .ok v) :
    doRequestLoop once cancel (fuel + 1) attempt dest lastErr waits made =
      { result := .ok v, attemptsMade := made + 1, waits := waits } := by
  simp [doRequestLoop, h]

theorem doRequestLoop_stop {δ : Type} (once : Nat → Except ClientError δ) (cancel : Nat → Bool)
    (fuel attempt : Nat) (dest : δ) (lastErr : Option ClientError) (waits : List Int) (made : Nat)
    (e : ClientError) (h : once attempt = .error e) (hr : e.isRetryable = false) :
    doRequestLoop once cancel (fuel + 1) attempt dest lastErr waits made =
      { result := .error e, attemptsMade := made + 1, waits := waits } := by
  simp [doRequestLoop, h, hr]

theorem doRequestLoop_cancelStep {δ : Type} (once : Nat → Except ClientError δ)
    (cancel : Nat → Bool) (fuel attempt : Nat) (dest : δ) (lastErr : Option ClientError)
    (waits : List Int) (made : Nat) (e : ClientError) (h : once attempt = .error e)
    (hr : e.isRetryable = true) (hc : cancel attempt = true) :
    doRequestLoop once cancel (fuel + 1) attempt dest lastErr waits made =
      { result := .error .contextCanceled, attemptsMade := made + 1, waits := waits } := by
  simp [doRequestLoop, h, hr, hc]

theorem doRequestLoop_continue {δ : Type} (once : Nat → Except ClientError δ)
    (cancel : Nat → Bool) (fuel attempt : Nat) (dest : δ) (lastErr : Option ClientError)
    (waits : List Int) (made : Nat) (e : ClientError) (h : once attempt = .error e)
    (hr : e.isRetryable = true) (hc : cancel attempt = false) :
    doRequestLoop once cancel (fuel + 1) attempt dest lastErr waits made =
      doRequestLoop once cancel fuel (attempt + 1) dest (some e)
        (waits ++ [backoffSleepNanos attempt]) (made + 1) := by
  simp [doRequestLoop, h, hr, hc]

theorem loop_attempts_le {δ : Type} (once : Nat → Except ClientError δ) (cancel : Nat → Bool) :
    ∀ (fuel attempt : Nat) (dest : δ) (lastErr : Option ClientError) (waits : List Int)
      (made : Nat),
    (doRequestLoop once cancel fuel attempt dest lastErr waits made).attemptsMade ≤
      made + fuel := by
  intro fuel
  induction fuel with
  | zero =>
    intro a d le w m
    simp [doRequestLoop_zero]
  | succ n ih =>
    intro a d le w m
    cases h : once a with
    | ok v =>
      rw [doRequestLoop_ok once cancel n a d le w m v h]
      show m + 1 ≤ m + (n + 1)
      omega
    | error e =>
      by_cases hr : e.isRetryable = true
      · by_cases hc : cancel a = true
        · rw [doRequestLoop_cancelStep once cancel n a d le w m e h hr hc]
          show m + 1 ≤ m + (n + 1)
          omega
        · rw [doRequestLoop_continue once cancel n a d le w m e h hr
            (by simpa using hc)]
          have := ih (a + 1) d (some e) (w ++ [backoffSleepNanos a]) (m + 1)
          omega
      · rw [doRequestLoop_stop once cancel n a d le w m e h (by simpa using hr)]
        show m + 1 ≤ m + (n + 1)
        omega

theorem loop_retry_chain {δ : Type} (once : Nat → Except ClientError δ) (cancel : Nat → Bool) :
    ∀ (fuel attempt : Nat) (dest : δ) (lastErr : Option ClientError) (waits : List Int)
      (made : Nat),
    ∃ t, t ≤ fuel ∧
      (doRequestLoop once cancel fuel attempt dest lastErr waits made).attemptsMade = made + t ∧
      ∀ i, i + 1 < t →
        retriedOn (once (attempt + i)) = true ∧ cancel (attempt + i) = false := by
  intro fuel
  induction fuel with
  | zero =>
    intro a d le w m
    exact ⟨0, Nat.le_refl 0, by simp [doRequestLoop_zero], fun i hi => absurd hi (by omega)⟩
  | succ n ih =>
    intro a d le w m
    cases h : once a with
    | ok v =>
      refine ⟨1, by omega, ?_, fun i hi => absurd hi (by omega)⟩
      rw [doRequestLoop_ok once cancel n a d le w m v h]
    | error e =>
      by_cases hr : e.isRetryable = true
      · by_cases hc : cancel a = true
        · refine ⟨1, by omega, ?_, fun i hi => absurd hi (by omega)⟩
          rw [doRequestLoop_cancelStep once cancel n a d le w m e h hr hc]
        · have hcf : cancel a = false := by simpa using hc
          obtain ⟨t, ht, hmade, hchain⟩ := ih (a + 1) d (some e) (w ++ [backoffSleepNanos a]) (m + 1)
          refine ⟨t + 1, by omega, ?_, ?_⟩
          · rw [doRequestLoop_continue once cancel n a d le w m e h hr hcf, hmade]
            omega
          · intro i hi
            cases i with
            | zero =>
              refine ⟨?_, by simpa using hcf⟩
              rw [Nat.add_zero, h]
              simpa [retriedOn] using hr
            | succ j =>
              have hj := hchain j (by omega)
              rwa [show a + 1 + j = a + (j + 1) by omega] at hj
      · refine ⟨1, by omega, ?_, fun i hi => absurd hi (by omega)⟩
        rw [doRequestLoop_stop once cancel n a d le w m e h (by simpa using hr)]

theorem backoff_map_shift (a k : Nat) :
    backoffSleepNanos a :: (List.range k).map (fun j => backoffSleepNanos (a + 1 + j)) =
      (List.range (k + 1)).map (fun j => backoffSleepNanos (a + j)) := by
  rw [List.range_succ_eq_map, List.map_cons, List.map_map]
  refine congrArg₂ _ (by rw [Nat.add_zero]) ?_
  apply List.map_congr_left
  intro j _
  show backoffSleepNanos (a + 1 + j) = backoffSleepNanos (a + Nat.succ j)
  exact congrArg backoffSleepNanos (by omega)

theorem loop_waits_shape {δ : Type} (once : Nat → Except ClientError δ) (cancel : Nat → Bool) :
    ∀ (fuel attempt : Nat) (dest : δ) (lastErr : Option ClientError) (waits : List Int)
      (made : Nat),
    ∃ k, (doRequestLoop once cancel fuel attempt dest lastErr waits made).waits =
      waits ++ (List.range k).map (fun j => backoffSleepNanos (attempt + j)) := by
  intro fuel
  induction fuel with
  | zero =>
    intro a d le w m
    exact ⟨0, by simp [doRequestLoop_zero]⟩
  | succ n ih =>
    intro a d le w m
    cases h : once a with
    | ok v =>
      exact ⟨0, by rw [doRequestLoop_ok once cancel n a d le w m v h]; simp⟩
    | error e =>
      by_cases hr : e.isRetryable = true
      · by_cases hc : cancel a = true
        · exact ⟨0, by rw [doRequestLoop_cancelStep once cancel n a d le w m e h hr hc]; simp⟩
        · have hcf : cancel a = false := by simpa using hc
          obtain ⟨k, hk⟩ := ih (a + 1) d (some e) (w ++ [backoffSleepNanos a]) (m + 1)
          refine ⟨k + 1, ?_⟩
          rw [doRequestLoop_continue once cancel n a d le w m e h hr hcf, hk,
            List.append_assoc, List.singleton_append, backoff_map_shift]
      · refine ⟨0, ?_⟩
        rw [doRequestLoop_stop once cancel n a d le w m e h (by simpa using hr)]
        simp

set_option maxRecDepth 4000 in
theorem backoffSleepNanos_small :
    ∀ i : Nat, i ≤ 33 → backoffSleepNanos i = (min ((2 : Int) ^ i) 10) * 1000000000 := by
  decide

theorem loop_all_retry {δ : Type} (once : Nat → Except ClientError δ) (cancel : Nat → Bool) :
    ∀ (fuel attempt : Nat) (dest : δ) (lastErr : Option ClientError) (waits : List Int)
      (made : Nat),
    fuel ≠ 0 →
    (∀ i, i < fuel → retriedOn (once (attempt + i)) = true) →
    (∀ i, cancel i = false) →
    (doRequestLoop once cancel fuel attempt dest lastErr waits made).result =
      once (attempt + fuel - 1) ∧
    (doRequestLoop once cancel fuel attempt dest lastErr waits made).attemptsMade =
      made + fuel := by
  intro fuel
  induction fuel with
  | zero =>
    intro a d le w m hfz _ _
    exact absurd rfl hfz
  | succ n ih =>
    intro a d le w m _ hall hcf
    have h0 : retriedOn (once a) = true := by
      have := hall 0 (by omega)
      rwa [Nat.add_zero] at this
    cases h : once a with
    | ok v =>
      rw [h] at h0
      simp [retriedOn] at h0
    | error e =>
      rw [h] at h0
      have hr : e.isRetryable = true := by simpa [retriedOn] using h0
      rw [doRequestLoop_continue once cancel n a d le w m e h hr (hcf a)]
      cases Nat.eq_zero_or_pos n with
      | inl hn0 =>
        subst hn0
        rw [doRequestLoop_zero]
        refine ⟨?_, rfl⟩
        show Except.error e = once (a + 1 - 1)
        rw [show a + 1 - 1 = a by omega, h]
      | inr hpos =>
        obtain ⟨ih1, ih2⟩ := ih (a + 1) d (some e) (w ++ [backoffSleepNanos a]) (m + 1)
          (by omega)
          (fun i hi => by
            have hx := hall (i + 1) (by omega)
            rwa [show a + 1 + i = a + (i + 1) by omega])
          hcf
        refine ⟨?_, by omega⟩
        rw [ih1]
        exact congrArg once (by omega)

theorem loop_stop_at {δ : Type} (once : Nat → Except ClientError δ) (cancel : Nat → Bool) :
    ∀ (i fuel attempt : Nat) (dest : δ) (lastErr : Option ClientError) (waits : List Int)
      (made : Nat),
    i < fuel →
    (∀ j, j < i → retriedOn (once (attempt + j)) = true ∧ cancel (attempt + j) = false) →
    ∀ e, once (attempt + i) = .error e → e.isRetryable = false →
    (doRequestLoop once cancel fuel attempt dest lastErr waits made).result = .error e ∧
    (doRequestLoop once cancel fuel attempt dest lastErr waits made).attemptsMade =
      made + i + 1 := by
  intro i
  induction i with
  | zero =>
    intro fuel a d le w m hif _ e he hr
    obtain ⟨n, rfl⟩ : ∃ n, fuel = n + 1 := ⟨fuel - 1, by omega⟩
    rw [Nat.add_zero] at he
    rw [doRequestLoop_stop once cancel n a d le w m e he hr]
    exact ⟨rfl, rfl⟩
  | succ i ih =>
    intro fuel a d le w m hif hpre e he hr
    obtain ⟨n, rfl⟩ : ∃ n, fuel = n + 1 := ⟨fuel - 1, by omega⟩
    obtain ⟨h0r, h0c⟩ := hpre 0 (by omega)
    rw [Nat.add_zero] at h0r h0c
    cases h : once a with
    | ok v =>
      rw [h] at h0r
      simp [retriedOn] at h0r
    | error e0 =>
      rw [h] at h0r
      have hr0 : e0.isRetryable = true := by simpa [retriedOn] using h0r
      rw [doRequestLoop_continue once cancel n a d le w m e0 h hr0 h0c]
      have hrec := ih n (a + 1) d (some e0) (w ++ [backoffSleepNanos a]) (m + 1) (by omega)
        (fun j hj => by
          have hx := hpre (j + 1) (by omega)
          rwa [show a + 1 + j = a + (j + 1) by omega])
        e (by rwa [show a + 1 + i = a + (i + 1) by omega]) hr
      refine ⟨hrec.1, ?_⟩
      have h2 := hrec.2
      omega

theorem loop_cancel_at {δ : Type} (once : Nat → Except ClientError δ) (cancel : Nat → Bool) :
    ∀ (i fuel attempt : Nat) (dest : δ) (lastErr : Option ClientError) (waits : List Int)
      (made : Nat),
    i < fuel →
    (∀ j, j < i → retriedOn (once (attempt + j)) = true ∧ cancel (attempt + j) = false) →
    ∀ e, once (attempt + i) = .error e → e.isRetryable = true → cancel (attempt + i) = true →
    (doRequestLoop once cancel fuel attempt dest lastErr waits made).result =
      .error .contextCanceled ∧
    (doRequestLoop once cancel fuel attempt dest lastErr waits made).attemptsMade =
      made + i + 1 := by
  intro i
  induction i with
  | zero =>
    intro fuel a d le w m hif _ e he hr hc
    obtain ⟨n, rfl⟩ : ∃ n, fuel = n + 1 := ⟨fuel - 1, by omega⟩
    rw [Nat.add_zero] at he hc
    rw [doRequestLoop_cancelStep once cancel n a d le w m e he hr hc]
    exact ⟨rfl, rfl⟩
  | succ i ih =>
    intro fuel a d le w m hif hpre e he hr hc
    obtain ⟨n, rfl⟩ : ∃ n, fuel = n + 1 := ⟨fuel - 1, by omega⟩
    obtain ⟨h0r, h0c⟩ := hpre 0 (by omega)
    rw [Nat.add_zero] at h0r h0c
    cases h : once a with
    | ok v =>
      rw [h] at h0r
      simp [retriedOn] at h0r
    | error e0 =>
      rw [h] at h0r
      have hr0 : e0.isRetryable = true := by simpa [retriedOn] using h0r
      rw [doRequestLoop_continue once cancel n a d le w m e0 h hr0 h0c]
      have hrec := ih n (a + 1) d (some e0) (w ++ [backoffSleepNanos a]) (m + 1) (by omega)
        (fun j hj => by
          have hx := hpre (j + 1) (by omega)
          rwa [show a + 1 + j = a + (j + 1) by omega])
        e (by rwa [show a + 1 + i = a + (i + 1) by omega]) hr
        (by rwa [show a + 1 + i = a + (i + 1) by omega])
      refine ⟨hrec.1, ?_⟩
      have h2 := hrec.2
      omega

/-- C1, counterexample: a 401 response whose body lacks a `detail` field is
classified with the default message "Invalid or missing API key", not the
message "Invalid or missing credential" stated by the claim. -/
theorem c1_counterexample :
    handleResponse (δ := Unit) none () { statusCode := 401, headers := [], body := .empty } =
      .error (.authentication ⟨"Invalid or missing API key", 401, none, ""⟩) ∧
    "Invalid or missing API key" ≠ "Invalid or missing credential" := by
  exact ⟨rfl, by decide⟩

/-- C1 (amended): for every response whose body lacks a `detail` field,
handleResponse classifies 401 as an AuthenticationError with default message
"Invalid or missing API key", 404 as a NotFoundError ("Resource not found"),
422 as a ValidationError ("Validation error"), 429 as a RateLimitError
("Rate limit exceeded"), and any status at least 500 as a ServerError with
default message "Server error: {status}". -/
theorem c1_default_messages {δ : Type} (dec : Option (Body → Option δ)) (dest : δ)
    (resp : HttpResponse) (hd : detailString resp.body = none) :
    (resp.statusCode = 401 → handleResponse dec dest resp = .error (.authentication
      ⟨"Invalid or missing API key", 401, none, headerGet resp.headers "X-Request-ID"⟩)) ∧
    (resp.statusCode = 404 → handleResponse dec dest resp = .error (.notFound
      ⟨"Resource not found", 404, none, headerGet resp.headers "X-Request-ID"⟩)) ∧
    (resp.statusCode = 422 → handleResponse dec dest resp = .error (.validation
      ⟨"Validation error", 422, none, headerGet resp.headers "X-Request-ID"⟩
      (errorsMap resp.body))) ∧
    (resp.statusCode = 429 → handleResponse dec dest resp = .error (.rateLimit
      ⟨"Rate limit exceeded", 429, none, headerGet resp.headers "X-Request-ID"⟩
      (retryAfterOf resp))) ∧
    (500 ≤ resp.statusCode → handleResponse dec dest resp = .error (.server
      ⟨"Server error: " ++ toString resp.statusCode, resp.statusCode, none,
        headerGet resp.headers "X-Request-ID"⟩)) := by
  refine ⟨?_, ?_, ?_, ?_, ?_⟩
  · intro h
    simp [handleResponse, h, detailOr, hd, NewAuthenticationError]
  · intro h
    simp [handleResponse, h, detailOr, hd, NewNotFoundError]
  · intro h
    simp [handleResponse, h, detailOr, hd, NewValidationError]
  · intro h
    simp [handleResponse, h, detailOr, hd, NewRateLimitError]
  · intro h
    have h1 : ¬(resp.statusCode = 401) := by omega
    have h2 : ¬(resp.statusCode = 404) := by omega
    have h3 : ¬(resp.statusCode = 422) := by omega
    have h4 : ¬(resp.statusCode = 429) := by omega
    have hne : ¬("Server error: " ++ toString resp.statusCode = "") := by
      intro hcontra
      have hlen := congrArg String.length hcontra
      rw [String.length_append] at hlen
      have hx : ("Server error: " : String).length = 14 := rfl
      have hy : ("" : String).length = 0 := rfl
      omega
    simp [handleResponse, h1, h2, h3, h4, h, detailOr, hd, NewServerError, hne]

/-- Witness for C1: concrete evaluation on a 404 response with an empty
body. -/
theorem c1_default_messages_witness :
    detailString Body.empty = none ∧
    handleResponse (δ := Unit) none () { statusCode := 404, headers := [], body := .empty } =
      .error (.notFound ⟨"Resource not found", 404, none, ""⟩) :=
  ⟨rfl, (c1_default_messages none () { statusCode := 404, headers := [], body := .empty }
    rfl).2.1 rfl⟩

/-- C2: at most `maxRetries` attempts in total; an attempt is followed by a
further attempt only when it produced a RateLimitError or ServerError and
the cancellation signal did not fire during the backoff; a non-retryable
first-attempt error is returned with exactly one attempt made; when every
attempt fails with a retryable error the last classified failure is what
doRequest returns; and the retryable errors are exactly the rateLimit and
server constructors. -/
theorem c2_retry_policy {δ : Type} (once : Nat → Except ClientError δ) (cancel : Nat → Bool)
    (maxRetries : Int) (dest : δ) :
    ((doRequest once cancel maxRetries dest).attemptsMade ≤ maxRetries.toNat) ∧
    (∀ i, i + 1 < (doRequest once cancel maxRetries dest).attemptsMade →
      retriedOn (once i) = true ∧ cancel i = false) ∧
    (∀ e, once 0 = .error e → e.isRetryable = false → 1 ≤ maxRetries →
      (doRequest once cancel maxRetries dest).result = .error e ∧
      (doRequest once cancel maxRetries dest).attemptsMade = 1) ∧
    (maxRetries.toNat ≠ 0 →
      (∀ i, i < maxRetries.toNat → retriedOn (once i) = true) →
      (∀ i, cancel i = false) →
      (doRequest once cancel maxRetries dest).result = once (maxRetries.toNat - 1) ∧
      (doRequest once cancel maxRetries dest).attemptsMade = maxRetries.toNat) ∧
    (∀ e : ClientError, e.isRetryable = true ↔
      ((∃ b r, e = .rateLimit b r) ∨ (∃ b, e = .server b))) := by
  refine ⟨?_, ?_, ?_, ?_, ?_⟩
  · have := loop_attempts_le once cancel maxRetries.toNat 0 dest none [] 0
    simpa [doRequest] using this
  · intro i hi
    obtain ⟨t, _, hmade, hchain⟩ := loop_retry_chain once cancel maxRetries.toNat 0 dest none [] 0
    rw [doRequest, hmade] at hi
    have := hchain i (by omega)
    simpa using this
  · intro e he hr hmr
    have h := loop_stop_at once cancel 0 maxRetries.toNat 0 dest none [] 0 (by omega)
      (fun j hj => absurd hj (by omega)) e (by simpa using he) hr
    exact ⟨by simpa [doRequest] using h.1, by simpa [doRequest] using h.2⟩
  · intro hnz hall hcf
    have h := loop_all_retry once cancel maxRetries.toNat 0 dest none [] 0 hnz
      (fun i hi => by simpa using hall i hi) hcf
    exact ⟨by simpa [doRequest] using h.1, by simpa [doRequest] using h.2⟩
  · intro e
    cases e <;> simp [ClientError.isRetryable]

/-- Witness for C2: a NotFoundError on the first attempt is returned after
exactly one attempt with maxRetries set to 3. -/
theorem c2_retry_policy_witness :
    (doRequest (fun _ => Except.error (NewNotFoundError "" "")) (fun _ => false) 3
      (0 : Nat)).result = .error (NewNotFoundError "" "") ∧
    (doRequest (fun _ => Except.error (NewNotFoundError "" "")) (fun _ => false) 3
      (0 : Nat)).attemptsMade = 1 :=
  (c2_retry_policy (fun _ => Except.error (NewNotFoundError "" "")) (fun _ => false) 3
    (0 : Nat)).2.2.1 (NewNotFoundError "" "") rfl rfl (by decide)

/-- C3, counterexample: with maxRetries 35 and ServerError on every
attempt, the backoff slept before retried attempt 35 (attempt counter 34)
is 0 nanoseconds, because `time.Duration(1<<34) * time.Second` wraps
negative in int64 and the 10-second cap is skipped; the claim demands
min(2^34, 10) = 10 seconds there. -/
theorem c3_counterexample :
    (doRequest (fun _ => Except.error (NewServerError "boom" 503 "")) (fun _ => false) 35
      (0 : Nat)).waits.get ⟨34, by decide⟩ = 0 ∧
    (0 : Int) ≠ (min ((2 : Int) ^ 34) 10) * 1000000000 := by
  exact ⟨by decide, by decide⟩

/-- C3 (amended): every backoff wait recorded by doRequest is a function of
the attempt counter alone (so the Retry-After header never changes it): the
int64 nanosecond value of `time.Duration(1<<attempt) * time.Second` capped
at 10 seconds, slept as 0 when the wrapped value is non-positive; for
attempt counters up to 33 (retried attempts n up to 34) no wrap occurs and
the delay equals min(2^(n-1), 10) seconds; a 429 response is classified
with the Retry-After header stored only on the RateLimitError record, and
that stored value defaults to 0 when the header is absent or unparsable. -/
theorem c3_backoff_delay :
    (∀ (δ : Type) (once : Nat → Except ClientError δ) (cancel : Nat → Bool) (maxRetries : Int)
      (dest : δ) (i : Nat) (h : i < (doRequest once cancel maxRetries dest).waits.length),
      (doRequest once cancel maxRetries dest).waits.get ⟨i, h⟩ = backoffSleepNanos i) ∧
    (∀ i : Nat, i ≤ 33 → backoffSleepNanos i = (min ((2 : Int) ^ i) 10) * 1000000000) ∧
    (∀ (δ : Type) (dec : Option (Body → Option δ)) (dest : δ) (resp : HttpResponse),
      resp.statusCode = 429 → handleResponse dec dest resp =
        .error (NewRateLimitError (detailOr resp.body "Rate limit exceeded") (retryAfterOf resp)
          (headerGet resp.headers "X-Request-ID"))) ∧
    (∀ resp : HttpResponse, headerGet resp.headers "Retry-After" = "" → retryAfterOf resp = 0) ∧
    (∀ resp : HttpResponse, goAtoi (headerGet resp.headers "Retry-After") = none →
      retryAfterOf resp = 0) := by
  refine ⟨?_, backoffSleepNanos_small, ?_, ?_, ?_⟩
  · intro δ once cancel mr dest i h
    obtain ⟨k, hk⟩ := loop_waits_shape once cancel mr.toNat 0 dest none [] 0
    have hk2 : (doRequest once cancel mr dest).waits =
        (List.range k).map (fun j => backoffSleepNanos j) := by
      rw [doRequest, hk]
      simp
    rw [List.get_eq_getElem, List.getElem_of_eq hk2 h, List.getElem_map, List.getElem_range]
  · intro δ dec dest resp h
    simp [handleResponse, h]
  · intro resp h
    simp [retryAfterOf, h]
  · intro resp h
    simp only [retryAfterOf]
    split
    · rfl
    · rw [h]

/-- Witness for C3: a run with three consecutive ServerError attempts waits
backoffSleepNanos 1 = min(2^1, 10) seconds = 2e9 nanoseconds before its
second retry. -/
theorem c3_backoff_delay_witness :
    (doRequest (fun _ => Except.error (NewServerError "boom" 503 "")) (fun _ => false) 3
      (0 : Nat)).waits.get ⟨1, by decide⟩ = backoffSleepNanos 1 ∧
    backoffSleepNanos 1 = (min ((2 : Int) ^ 1) 10) * 1000000000 :=
  ⟨c3_backoff_delay.1 Nat (fun _ => Except.error (NewServerError "boom" 503 "")) (fun _ => false)
    3 0 1 (by decide),
   c3_backoff_delay.2.1 1 (by decide)⟩

/-- C4: when the cancellation signal fires during the backoff wait that
follows a retryable failure, doRequest returns the cancellation error and
not the classified error that triggered the backoff. -/
theorem c4_cancellation_during_backoff {δ : Type} (once : Nat → Except ClientError δ)
    (cancel : Nat → Bool) (maxRetries : Int) (dest : δ) (i : Nat)
    (hif : i < maxRetries.toNat)
    (hpre : ∀ j, j < i → retriedOn (once j) = true ∧ cancel j = false)
    (e : ClientError) (he : once i = .error e) (hr : e.isRetryable = true)
    (hc : cancel i = true) :
    (doRequest once cancel maxRetries dest).result = .error .contextCanceled ∧
    (doRequest once cancel maxRetries dest).result ≠ .error e := by
  have h := loop_cancel_at once cancel i maxRetries.toNat 0 dest none [] 0 hif
    (fun j hj => by simpa using hpre j hj) e (by simpa using he) hr (by simpa using hc)
  have hres : (doRequest once cancel maxRetries dest).result = .error .contextCanceled := by
    simpa [doRequest] using h.1
  refine ⟨hres, ?_⟩
  rw [hres]
  intro hcontra
  have hee : ClientError.contextCanceled = e := by injection hcontra
  rw [← hee] at hr
  simp [ClientError.isRetryable] at hr

/-- Witness for C4: cancellation during the backoff after a first-attempt
RateLimitError yields the cancellation error. -/
theorem c4_cancellation_during_backoff_witness :
    (doRequest (fun _ => Except.error (NewRateLimitError "" 5 "")) (fun _ => true) 2
      (0 : Nat)).result = .error .contextCanceled ∧
    (doRequest (fun _ => Except.error (NewRateLimitError "" 5 "")) (fun _ => true) 2
      (0 : Nat)).result ≠ .error (NewRateLimitError "" 5 "") :=
  c4_cancellation_during_backoff (fun _ => Except.error (NewRateLimitError "" 5 ""))
    (fun _ => true) 2 (0 : Nat) 0 (by decide) (fun j hj => absurd hj (by omega))
    (NewRateLimitError "" 5 "") rfl rfl rfl

/-- C5: with a non-positive maxRetries the retry loop of doRequest never
runs, so the call performs zero attempts, waits never, and returns success
(a nil error) with the destination untouched, rather than performing the
single attempt the claim describes; WithMaxRetries installs the
configured value unchanged. -/
theorem c5_maxretries_nonpositive {δ : Type} (once : Nat → Except ClientError δ)
    (cancel : Nat → Bool) (maxRetries : Int) (dest : δ) (h : maxRetries ≤ 0) :
    doRequest once cancel maxRetries dest =
      { result := .ok dest, attemptsMade := 0, waits := [] } ∧
    (∀ c : Client, (WithMaxRetries maxRetries c).maxRetries = maxRetries) := by
  have h0 : maxRetries.toNat = 0 := by omega
  refine ⟨?_, fun c => rfl⟩
  rw [doRequest, h0]
  rfl

/-- Witness for C5: a client with maxRetries 0 performs no attempt and
reports success even though every attempt would fail. -/
theorem c5_maxretries_nonpositive_witness :
    doRequest (fun _ => Except.error (NewServerError "" 500 "")) (fun _ => false) 0 (0 : Nat) =
      { result := .ok 0, attemptsMade := 0, waits := [] } ∧
    (WithMaxRetries 0 (NewClient "k" [])).maxRetries = 0 :=
  ⟨(c5_maxretries_nonpositive (fun _ => Except.error (NewServerError "" 500 "")) (fun _ => false)
      0 (0 : Nat) (by decide)).1,
   (c5_maxretries_nonpositive (fun _ => Except.error (NewServerError "" 500 "")) (fun _ => false)
      0 (0 : Nat) (by decide)).2 (NewClient "k" [])⟩

/-- C6: payload-marshal failures, network send failures and JSON-decode
failures of a success body each surface as transport errors, transport
errors are never retryable, and an attempt that produces one ends doRequest
immediately with that error and no further attempt. -/
theorem c6_transport_errors_not_retried :
    (∀ (δ : Type) (dec : Option (Body → Option δ)) (dest : δ),
      doRequestOnce dec dest .marshalFail =
        .error (.transport "failed to marshal request body") ∧
      doRequestOnce dec dest .sendFail = .error (.transport "failed to send request")) ∧
    (∀ (δ : Type) (d : Body → Option δ) (dest : δ) (resp : HttpResponse),
      resp.statusCode < 400 → bodyNonEmpty resp.body = true → d resp.body = none →
      handleResponse (some d) dest resp = .error (.transport "failed to unmarshal response")) ∧
    (∀ msg, (ClientError.transport msg).isRetryable = false) ∧
    (∀ (δ : Type) (once : Nat → Except ClientError δ) (cancel : Nat → Bool) (maxRetries : Int)
      (dest : δ) (i : Nat), i < maxRetries.toNat →
      (∀ j, j < i → retriedOn (once j) = true ∧ cancel j = false) →
      ∀ msg, once i = .error (.transport msg) →
      (doRequest once cancel maxRetries dest).result = .error (.transport msg) ∧
      (doRequest once cancel maxRetries dest).attemptsMade = i + 1) := by
  refine ⟨fun δ dec dest => ⟨rfl, rfl⟩, ?_, fun msg => rfl, ?_⟩
  · intro δ d dest resp hs hb hdec
    have h1 : ¬(resp.statusCode = 401) := by omega
    have h2 : ¬(resp.statusCode = 404) := by omega
    have h3 : ¬(resp.statusCode = 422) := by omega
    have h4 : ¬(resp.statusCode = 429) := by omega
    have h5 : ¬(500 ≤ resp.statusCode) := by omega
    have h6 : ¬(400 ≤ resp.statusCode) := by omega
    simp [handleResponse, h1, h2, h3, h4, h5, h6, hb, hdec]
  · intro δ once cancel maxRetries dest i hif hpre msg he
    have h := loop_stop_at once cancel i maxRetries.toNat 0 dest none [] 0 hif
      (fun j hj => by simpa using hpre j hj) (.transport msg) (by simpa using he) rfl
    exact ⟨by simpa [doRequest] using h.1, by simpa [doRequest] using h.2⟩

/-- Witness for C6: a marshal failure on the first attempt is returned with
one attempt made. -/
theorem c6_transport_errors_not_retried_witness :
    (doRequest (fun _ => doRequestOnce (δ := Nat) none 0 .marshalFail) (fun _ => false) 3
      (0 : Nat)).result = .error (.transport "failed to marshal request body") ∧
    (doRequest (fun _ => doRequestOnce (δ := Nat) none 0 .marshalFail) (fun _ => false) 3
      (0 : Nat)).attemptsMade = 0 + 1 :=
  c6_transport_errors_not_retried.2.2.2 Nat
    (fun _ => doRequestOnce (δ := Nat) none 0 .marshalFail) (fun _ => false) 3 (0 : Nat) 0
    (by decide) (fun j hj => absurd hj (by omega)) "failed to marshal request body" rfl

/-- C7: a success response (status below 400) with an empty body and a
non-nil destination reports success and returns the destination exactly as
it was. -/
theorem c7_empty_body_success {δ : Type} (d : Body → Option δ) (dest : δ)
    (resp : HttpResponse) (hs : resp.statusCode < 400) (hb : resp.body = .empty) :
    handleResponse (some d) dest resp = .ok dest := by
  have h1 : ¬(resp.statusCode = 401) := by omega
  have h2 : ¬(resp.statusCode = 404) := by omega
  have h3 : ¬(resp.statusCode = 422) := by omega
  have h4 : ¬(resp.statusCode = 429) := by omega
  have h5 : ¬(500 ≤ resp.statusCode) := by omega
  have h6 : ¬(400 ≤ resp.statusCode) := by omega
  simp [handleResponse, h1, h2, h3, h4, h5, h6, hb, bodyNonEmpty]

/-- Witness for C7: a 200 response with an empty body leaves a concrete
destination value unchanged. -/
theorem c7_empty_body_success_witness :
    handleResponse (some fun _ => some 99) (7 : Nat)
      { statusCode := 200, headers := [], body := .empty } = .ok 7 :=
  c7_empty_body_success (fun _ => some 99) 7
    { statusCode := 200, headers := [], body := .empty } (by decide) rfl

/-- C8: Verify with neither image URL nor inline image data, and
CheckConsent with none of image URL, inline image data or face embedding,
each return a ValidationError with zero network attempts. -/
theorem c8_local_validation :
    (∀ (c : Client) (once : Nat → Except ClientError VerifyResponse) (cancel : Nat → Bool)
      (req : VerifyRequest), req.ImageURL = "" → req.ImageBase64 = "" →
      Verify c once cancel req =
        (.error (NewValidationError "Must provide image_url or image_base64" none ""), 0)) ∧
    (∀ (c : Client) (once : Nat → Except ClientError ConsentCheckResponse) (cancel : Nat → Bool)
      (req : ConsentCheckRequest), req.ImageURL = "" → req.ImageBase64 = "" →
      req.FaceEmbedding.length = 0 →
      CheckConsent c once cancel req =
        (.error (NewValidationError "Must provide image_url, image_base64, or face_embedding"
          none ""), 0)) := by
  constructor
  · intro c once cancel req h1 h2
    simp [Verify, h1, h2]
  · intro c once cancel req h1 h2 h3
    simp [CheckConsent, h1, h2, h3]

/-- Witness for C8: concrete empty requests fail fast for both endpoints. -/
theorem c8_local_validation_witness :
    Verify (NewClient "k" []) (fun _ => Except.error .contextCanceled) (fun _ => false)
      { ImageURL := "", ImageBase64 := "", IncludeLicenseOptions := false } =
      (.error (NewValidationError "Must provide image_url or image_base64" none ""), 0) ∧
    CheckConsent (NewClient "k" []) (fun _ => Except.error .contextCanceled) (fun _ => false)
      { ImageURL := "", ImageBase64 := "", FaceEmbedding := [], Platform := "p",
        IntendedUse := "u", Region := "" } =
      (.error (NewValidationError "Must provide image_url, image_base64, or face_embedding"
        none ""), 0) :=
  ⟨c8_local_validation.1 (NewClient "k" []) (fun _ => Except.error .contextCanceled)
      (fun _ => false) _ rfl rfl,
   c8_local_validation.2 (NewClient "k" []) (fun _ => Except.error .contextCanceled)
      (fun _ => false) _ rfl rfl rfl⟩

/-- C9, counterexample: a request built with no payload still carries a
Content-Type header of application/json, so it is not the case that a
bodyless request carries no Content-Type header. -/
theorem c9_counterexample :
    headerGet (buildRequest (NewClient "k" []) "GET" "/api/v1/identity/abc" false).headers
      "Content-Type" = "application/json" ∧
    "application/json" ≠ "" := by
  exact ⟨rfl, by decide⟩

/-- C9 (amended): the Content-Type application/json header is attached to
every dispatched request unconditionally, whether or not a request body is
present. -/
theorem c9_content_type_always (c : Client) (method path : String) (hasBody : Bool) :
    headerGet (buildRequest c method path hasBody).headers "Content-Type" =
      "application/json" := rfl

/-- C10: PurchaseLicense rewrites a zero DurationDays to 30 in the caller's
request struct before dispatching it, leaving every other field unchanged,
and dispatches a request with nonzero DurationDays unmodified. -/
theorem c10_purchase_duration_default (c : Client)
    (once : Nat → Except ClientError PurchaseResponse) (cancel : Nat → Bool)
    (req : PurchaseLicenseRequest) :
    (req.DurationDays = 0 →
      (PurchaseLicense c once cancel req).finalReq.DurationDays = 30 ∧
      (PurchaseLicense c once cancel req).finalReq.IdentityID = req.IdentityID ∧
      (PurchaseLicense c once cancel req).finalReq.LicenseType = req.LicenseType ∧
      (PurchaseLicense c once cancel req).finalReq.UsageType = req.UsageType ∧
      (PurchaseLicense c once cancel req).finalReq.ProjectName = req.ProjectName ∧
      (PurchaseLicense c once cancel req).finalReq.ProjectDescription =
        req.ProjectDescription ∧
      (PurchaseLicense c once cancel req).finalReq.AllowedPlatforms = req.AllowedPlatforms ∧
      (PurchaseLicense c once cancel req).finalReq.MaxImpressions = req.MaxImpressions ∧
      (PurchaseLicense c once cancel req).finalReq.MaxOutputs = req.MaxOutputs) ∧
    (req.DurationDays ≠ 0 → (PurchaseLicense c once cancel req).finalReq = req) := by
  constructor
  · intro h
    simp [PurchaseLicense, h]
  · intro h
    simp [PurchaseLicense, h]

/-- Witness for C10: a request with DurationDays 0 is dispatched with 30 and
all other fields intact; one with DurationDays 7 is untouched. -/
theorem c10_purchase_duration_default_witness :
    ((PurchaseLicense (NewClient "k" []) (fun _ => Except.error .contextCanceled)
      (fun _ => false)
      { IdentityID := "id1", LicenseType := "standard", UsageType := "personal",
        ProjectName := "p", ProjectDescription := "d", DurationDays := 0,
        AllowedPlatforms := ["web"], MaxImpressions := none,
        MaxOutputs := some 5 }).finalReq.DurationDays = 30 ∧
    (PurchaseLicense (NewClient "k" []) (fun _ => Except.error .contextCanceled)
      (fun _ => false)
      { IdentityID := "id1", LicenseType := "standard", UsageType := "personal",
        ProjectName := "p", ProjectDescription := "d", DurationDays := 0,
        AllowedPlatforms := ["web"], MaxImpressions := none,
        MaxOutputs := some 5 }).finalReq.IdentityID = "id1") ∧
    (PurchaseLicense (NewClient "k" []) (fun _ => Except.error .contextCanceled)
      (fun _ => false)
      { IdentityID := "id2", LicenseType := "extended", UsageType := "commercial",
        ProjectName := "q", ProjectDescription := "e", DurationDays := 7,
        AllowedPlatforms := [], MaxImpressions := none, MaxOutputs := none }).finalReq =
      { IdentityID := "id2", LicenseType := "extended", UsageType := "commercial",
        ProjectName := "q", ProjectDescription := "e", DurationDays := 7,
        AllowedPlatforms := [], MaxImpressions := none, MaxOutputs := none } :=
  ⟨⟨((c10_purchase_duration_default (NewClient "k" [])
        (fun _ => Except.error .contextCanceled) (fun _ => false) _).1 rfl).1,
    ((c10_purchase_duration_default (NewClient "k" [])
        (fun _ => Except.error .contextCanceled) (fun _ => false) _).1 rfl).2.1⟩,
   (c10_purchase_duration_default (NewClient "k" [])
        (fun _ => Except.error .contextCanceled) (fun _ => false) _).2 (by decide)⟩
